import Mathlib

/-!
Verification of the generative audio engine in `src/components/AudioEngine.js`.

The numeric core of the engine (parameter mapping, scheduling intervals,
automation envelopes, graph wiring) is shallowly embedded over `ℚ`:
JavaScript numbers are modelled by exact rationals for the finite cases, and
by an explicit `JSNum` type (finite / NaN / ±Infinity) where the behaviour on
non-finite inputs is at issue.  Web Audio automation (`setValueAtTime`,
ramps, `cancelScheduledValues`, `setTargetAtTime`) is modelled as explicit
event lists; the audio graph built by `connect()` calls is modelled as an
explicit edge list; the `setInterval` timers and the two React effects are
modelled as state transition functions whose dependency lists mirror the
source (`[isRunning]` for the build/teardown effect, `[tension, reverb,
volume]` for the live-update effect).
-/

namespace AudioEngine

/-! ## Parameter mapping utilities (source lines 93–98) -/

/-- `clamp(v, min, max) = Math.max(min, Math.min(max, v))`. -/
def clamp (v lo hi : ℚ) : ℚ := max lo (min hi v)

/-- The interpolation factor `t` computed inside `scale`:
`t = (clamp(v, inMin, inMax) - inMin) / (inMax - inMin || 1)`.
The `|| 1` guard replaces a zero denominator by 1. -/
def tval (v inMin inMax : ℚ) : ℚ :=
  (clamp v inMin inMax - inMin) / (if inMax - inMin = 0 then 1 else inMax - inMin)

/-- `scale(v, inMin, inMax, outMin, outMax) = outMin + t * (outMax - outMin)`. -/
def scale (v inMin inMax outMin outMax : ℚ) : ℚ :=
  outMin + tval v inMin inMax * (outMax - outMin)

/-! ## JavaScript number semantics for non-finite inputs (claim C8)

`JSNum` models an IEEE-754 double as seen by the operations `clamp` and
`scale` actually perform: a finite value (exact rational), `NaN`, or
`±Infinity`.  The operations mirror `Math.min` / `Math.max` and JS
arithmetic on these values; `-0` needs no separate treatment because the
engine only feeds the results into further arithmetic where `-0` and `0`
agree. -/

inductive JSNum where
  | nan : JSNum
  | posInf : JSNum
  | negInf : JSNum
  | fin : ℚ → JSNum
deriving DecidableEq

/-- `Math.min`: NaN-propagating, `-Infinity` absorbing. -/
def jsMin : JSNum → JSNum → JSNum
  | .nan, _ => .nan
  | _, .nan => .nan
  | .negInf, _ => .negInf
  | _, .negInf => .negInf
  | .posInf, b => b
  | a, .posInf => a
  | .fin a, .fin b => .fin (min a b)

/-- `Math.max`: NaN-propagating, `+Infinity` absorbing. -/
def jsMax : JSNum → JSNum → JSNum
  | .nan, _ => .nan
  | _, .nan => .nan
  | .posInf, _ => .posInf
  | _, .posInf => .posInf
  | .negInf, b => b
  | a, .negInf => a
  | .fin a, .fin b => .fin (max a b)

/-- JS subtraction on doubles. -/
def jsSub : JSNum → JSNum → JSNum
  | .nan, _ => .nan
  | _, .nan => .nan
  | .posInf, .posInf => .nan
  | .posInf, _ => .posInf
  | .negInf, .negInf => .nan
  | .negInf, _ => .negInf
  | .fin _, .posInf => .negInf
  | .fin _, .negInf => .posInf
  | .fin a, .fin b => .fin (a - b)

/-- JS addition on doubles. -/
def jsAdd : JSNum → JSNum → JSNum
  | .nan, _ => .nan
  | _, .nan => .nan
  | .posInf, .negInf => .nan
  | .negInf, .posInf => .nan
  | .posInf, _ => .posInf
  | _, .posInf => .posInf
  | .negInf, _ => .negInf
  | _, .negInf => .negInf
  | .fin a, .fin b => .fin (a + b)

/-- JS multiplication on doubles (`Infinity * 0 = NaN`). -/
def jsMul : JSNum → JSNum → JSNum
  | .nan, _ => .nan
  | _, .nan => .nan
  | .posInf, .posInf => .posInf
  | .posInf, .negInf => .negInf
  | .negInf, .posInf => .negInf
  | .negInf, .negInf => .posInf
  | .posInf, .fin b => if b = 0 then .nan else if 0 < b then .posInf else .negInf
  | .fin a, .posInf => if a = 0 then .nan else if 0 < a then .posInf else .negInf
  | .negInf, .fin b => if b = 0 then .nan else if 0 < b then .negInf else .posInf
  | .fin a, .negInf => if a = 0 then .nan else if 0 < a then .negInf else .posInf
  | .fin a, .fin b => .fin (a * b)

/-- JS division on doubles (`0/0 = NaN`, `x/0 = ±Infinity` for `x ≠ 0`). -/
def jsDiv : JSNum → JSNum → JSNum
  | .nan, _ => .nan
  | _, .nan => .nan
  | .posInf, .posInf => .nan
  | .posInf, .negInf => .nan
  | .negInf, .posInf => .nan
  | .negInf, .negInf => .nan
  | .posInf, .fin b => if 0 ≤ b then .posInf else .negInf
  | .negInf, .fin b => if 0 ≤ b then .negInf else .posInf
  | .fin _, .posInf => .fin 0
  | .fin _, .negInf => .fin 0
  | .fin a, .fin b =>
      if b = 0 then (if a = 0 then .nan else if 0 < a then .posInf else .negInf)
      else .fin (a / b)

/-- JS truthiness of a number: `0`, `-0` and `NaN` are falsy. -/
def jsFalsy : JSNum → Bool
  | .nan => true
  | .fin q => q == 0
  | _ => false

/-- `x || 1` as used for the denominator guard in `scale`. -/
def jsOr1 (x : JSNum) : JSNum := if jsFalsy x then .fin 1 else x

/-- `clamp` on JS doubles: `Math.max(min, Math.min(max, v))`. -/
def jsClamp (v lo hi : JSNum) : JSNum := jsMax lo (jsMin hi v)

/-- `scale` on JS doubles, exactly as the source computes it. -/
def jsScale (v inMin inMax outMin outMax : JSNum) : JSNum :=
  jsAdd outMin
    (jsMul (jsDiv (jsSub (jsClamp v inMin inMax) inMin) (jsOr1 (jsSub inMax inMin)))
      (jsSub outMax outMin))

/-! ## Web Audio parameter automation

An `AudioParam`'s pending automation is modelled as the list of events the
engine has scheduled on it, in scheduling order.  `cancelScheduledValues(t)`
removes every event whose scheduled time is at or after `t` (Web Audio
§AudioParam.cancelScheduledValues). -/

inductive AutomationEvent where
  | setValue (value time : ℚ)
  | linearRamp (value time : ℚ)
  | expRamp (value time : ℚ)
  | setTarget (target time timeConstant : ℚ)
deriving DecidableEq

/-- The scheduled time of an automation event. -/
def eventTime : AutomationEvent → ℚ
  | .setValue _ t => t
  | .linearRamp _ t => t
  | .expRamp _ t => t
  | .setTarget _ t _ => t

/-- `param.cancelScheduledValues(t)`: drop events scheduled at or after `t`. -/
def cancelScheduledValues (t : ℚ) (l : List AutomationEvent) : List AutomationEvent :=
  l.filter (fun e => eventTime e < t)

/-! ## PulseLayer (source lines 167–193) -/

/-- Oscillator frequency and envelope gain automation of the pulse layer.
The underlying sine oscillator (base 50 Hz) and wave shaper (drive 400) are
static; only the two automated params carry state. -/
structure PulseState where
  freqEvents : List AutomationEvent
  gainEvents : List AutomationEvent
deriving DecidableEq

/-- `createPulse`: oscillator at 50 Hz into a saturation shaper into a gain
held at 0; no automation scheduled yet. -/
def createPulseState : PulseState := { freqEvents := [], gainEvents := [] }

/-- Base frequency of the pulse oscillator (Hz). -/
def pulseBaseFreq : ℚ := 50

/-- Drive amount of the saturation curve fed to the wave shaper. -/
def pulseDriveAmount : ℚ := 400

/-- `pulse.trigger(time)`: cancel pending automation on both params, then
schedule the 60→40 Hz exponential sweep over 90 ms and the 0→0.6 linear rise
over 10 ms followed by the exponential decay to 0.0001 by 600 ms. -/
def pulseTrigger (now : ℚ) (s : PulseState) : PulseState :=
  { freqEvents := cancelScheduledValues now s.freqEvents ++
      [.setValue 60 now, .expRamp 40 (now + 9/100)],
    gainEvents := cancelScheduledValues now s.gainEvents ++
      [.setValue 0 now, .linearRamp (6/10) (now + 1/100), .expRamp (1/10000) (now + 6/10)] }

/-! ## ReverbNetwork (source lines 100–129)

The graph built by `createSimpleReverb` is represented as the list of
directed `connect()` edges, in the order the source issues them. -/

inductive RNode where
  | input : RNode
  | output : RNode
  | damp : RNode
  | delayLine (i : Fin 4) : RNode
  | feedback (i : Fin 4) : RNode
deriving DecidableEq

/-- The literal delay times `[0.011, 0.017, 0.019, 0.029]` (seconds). -/
def reverbDelayRaw : Fin 4 → ℚ
  | 0 => 11/1000
  | 1 => 17/1000
  | 2 => 19/1000
  | 3 => 29/1000

/-- `ctx.createDelay(0.25)`: maximum delay capacity of each line (seconds). -/
def reverbMaxDelay : ℚ := 1/4

/-- The assigned `delayTime.value`:
`maxValue ? Math.min(0.25, t_i) : t_i`, where `maxValue` (0.25) is truthy. -/
def reverbDelayTime (i : Fin 4) : ℚ :=
  if reverbMaxDelay ≠ 0 then min (1/4) (reverbDelayRaw i) else reverbDelayRaw i

/-- Feedback gain of every delay line. -/
def reverbFeedbackGain : ℚ := 35/100

/-- Cutoff of the shared damping filter (Hz). -/
def reverbDampCutoff : ℚ := 4500

/-- Type of the shared damping filter. -/
def reverbDampType : String := "lowpass"

/-- The `connect()` edges of `createSimpleReverb`, in source order:
input broadcast to the four delay lines; each delay line to the shared damp
filter and to its own feedback gain, which re-enters the same delay line;
damp to the output port. -/
def reverbConnections : List (RNode × RNode) :=
  [(.input, .delayLine 0), (.input, .delayLine 1),
    (.input, .delayLine 2), (.input, .delayLine 3)] ++
  (List.finRange 4).flatMap
    (fun i => [(.delayLine i, .damp), (.delayLine i, .feedback i),
      (.feedback i, .delayLine i)]) ++
  [(.damp, .output)]

/-! ## DroneLayer (source lines 131–165)

Oscillator frequencies are `55·2^(k/12)` Hz for the semitone offsets below;
the offsets are recorded as naturals because the frequencies themselves are
irrational.  The mutable state consists of the running flag, the oscillator
started flag, and the two automated params (filter cutoff and output gain),
each with a current base value and a list of scheduled events. -/

/-- Root frequency of the drone (Hz). -/
def droneRoot : ℚ := 55

/-- Semitone offsets of the three oscillators above the 55 Hz root:
root, minor second, fifth. -/
def droneSemis : Fin 3 → ℕ := ![0, 1, 7]

/-- Oscillator waveforms: sawtooth, triangle, sawtooth. -/
def droneOscTypes : Fin 3 → String := !["sawtooth", "triangle", "sawtooth"]

/-- Detune of the three oscillators (cents). -/
def droneDetunes : Fin 3 → ℚ := ![-7, 3, 7]

structure DroneState where
  running : Bool
  oscStarted : Bool
  lpfFrequencyValue : ℚ
  lpfFrequencyEvents : List AutomationEvent
  gainValue : ℚ
  gainEvents : List AutomationEvent
  lfoFrequency : ℚ
  lfoGainValue : ℚ
deriving DecidableEq

/-- `createDrone` body: filter cutoff initialised to 400 Hz, output gain to
0.14, the 0.07 Hz LFO with ±220 Hz depth wired into the cutoff; nothing
running yet. -/
def createDroneState : DroneState :=
  { running := false, oscStarted := false,
    lpfFrequencyValue := 400, lpfFrequencyEvents := [],
    gainValue := 14/100, gainEvents := [],
    lfoFrequency := 7/100, lfoGainValue := 220 }

/-- The engine calls `createDrone(ctx, reverbBus.input, dryGain, { tension })`
but `createDrone(ctx, reverbIn, dry)` declares only three parameters, so the
options argument is dropped (standard JS extra-argument semantics): the
initial state does not depend on `tension`. -/
def createDroneCalled (tension : ℚ) : DroneState := createDroneState

/-- `drone.start()`: no-op when already running, otherwise start the three
oscillators and the LFO. -/
def droneStart (s : DroneState) : DroneState :=
  if s.running then s else { s with running := true, oscStarted := true }

/-- `osc.stop()` on an `AudioScheduledSourceNode` raises `InvalidStateError`
when the node was never started. -/
def oscillatorsStopRaw (started : Bool) : Except String Bool :=
  if started then .ok false else .error "InvalidStateError"

/-- The body of the `try` block in `drone.stop()`: stop all oscillators. -/
def droneStopBody (s : DroneState) : Except String DroneState :=
  match oscillatorsStopRaw s.oscStarted with
  | .ok b => .ok { s with oscStarted := b }
  | .error e => .error e

/-- `drone.stop()`: no-op when not running; otherwise clear the running flag
and stop the oscillators, discarding any `InvalidStateError` via the empty
`catch` block. -/
def droneStop (s : DroneState) : DroneState :=
  if !s.running then s
  else
    let s1 := { s with running := false }
    match droneStopBody s1 with
    | .ok s2 => s2
    | .error _ => s1

/-- `drone.stop()` with its error channel made explicit: an `Except` result
showing whether any exception escapes the call. -/
def droneStopExc (s : DroneState) : Except String DroneState :=
  if !s.running then .ok s
  else
    let s1 := { s with running := false }
    match droneStopBody s1 with
    | .ok s2 => .ok s2
    | .error _ => .ok s1

/-- `drone.setTension(t)`: retarget cutoff and gain with a 0.5 s time
constant via `setTargetAtTime`. -/
def droneSetTension (tension now : ℚ) (s : DroneState) : DroneState :=
  { s with
    lpfFrequencyEvents := s.lpfFrequencyEvents ++
      [.setTarget (scale tension 0 100 260 1800) now (1/2)],
    gainEvents := s.gainEvents ++
      [.setTarget (scale tension 0 100 (1/10) (2/10)) now (1/2)] }

/-! ## TextureLayer (source lines 195–223) -/

/-- Duration (seconds) and amplitude factor of the shared noise buffer. -/
def noiseBufferDuration : ℚ := 2

/-- Amplitude factor applied to each white-noise sample. -/
def noiseBufferAmp : ℚ := 8/10

/-- A one-shot texture voice: a fresh buffer source through a band-pass
filter and an envelope gain.  `r` below stands for the `Math.random()` draw
in `[0,1)` that jitters the filter centre. -/
structure TextureShot where
  startTime : ℚ
  stopTime : ℚ
  filterType : String
  filterFreq : ℚ
  filterQ : ℚ
  envPeak : ℚ
  envPeakTime : ℚ
  envDecayEnd : ℚ
deriving DecidableEq

/-- `texture.trigger(time, tension)` with random draw `r`. -/
def textureTrigger (now tension r : ℚ) : TextureShot :=
  { startTime := now,
    stopTime := now + 2,
    filterType := "bandpass",
    filterFreq := scale tension 0 100 400 3200 * (1 + (r - 5/10) * (3/10)),
    filterQ := scale tension 0 100 2 8,
    envPeak := scale tension 0 100 (12/100) (35/100),
    envPeakTime := now + 2/100,
    envDecayEnd := now + scale tension 0 100 (16/10) (6/10) }

/-! ## PluckLayer (source lines 225–250) -/

/-- A one-shot pluck voice.  The oscillator frequency is
`440 · octaveMult · 2^(intervalSemis/12)` Hz; the irrational semitone factor
is kept symbolic.  `r1, r2, r3` stand for the three `Math.random()` draws in
`[0,1)`: waveform choice, octave, interval. -/
structure PluckShot where
  startTime : ℚ
  stopTime : ℚ
  waveform : String
  octaveMult : ℕ
  intervalSemis : ℕ
  hpFrequency : ℚ
  envPeak : ℚ
  envPeakTime : ℚ
  envDecayEnd : ℚ
deriving DecidableEq

/-- `pluck.trigger(time, tension)` with random draws `r1, r2, r3`. -/
def pluckTrigger (now tension r1 r2 r3 : ℚ) : PluckShot :=
  { startTime := now,
    stopTime := now + 2,
    waveform := if r1 < 5/10 then "square" else "triangle",
    octaveMult := 2 ^ (Int.toNat ⌊r2 * 3⌋),
    intervalSemis := [1, 2, 6, 10].getD (Int.toNat ⌊r3 * 4⌋) 0,
    hpFrequency := 600,
    envPeak := scale tension 0 100 (6/100) (18/100),
    envPeakTime := now + 5/1000,
    envDecayEnd := now + scale tension 0 100 (12/10) (45/100) }

/-- Probability of an actual pluck on each 2000 ms pluck-timer fire. -/
def pluckProbability (tension : ℚ) : ℚ := scale tension 0 100 (15/100) (55/100)

/-! ## Session lifecycle and scheduling (source lines 3–90)

The component's props, the per-session state held in the refs, the
`setInterval` timers, the cleanup function of the first effect, and the
dependency-gated re-runs of both effects. -/

inductive TimerKind where
  | pulseK : TimerKind
  | noiseK : TimerKind
  | pluckK : TimerKind
deriving DecidableEq

structure Timer where
  kind : TimerKind
  intervalMs : ℚ
deriving DecidableEq

structure Props where
  isRunning : Bool
  tension : ℚ
  pulse : ℚ
  reverb : ℚ
  volume : ℚ
deriving DecidableEq

/-- One engine session: the audio context, the timers registered in
`timersRef`, the tension captured by the timer closures at build time, the
layers, and the master/wet gain params.  The master gain is recorded by its
decibel argument (the applied linear gain is `10^(db/20)`, irrational in
general). -/
structure Session where
  ctxOpen : Bool
  timers : List Timer
  capturedTension : ℚ
  drone : DroneState
  pulseLayer : PulseState
  masterGainDb : ℚ
  masterGainEvents : List AutomationEvent
  reverbWetValue : ℚ
  reverbWetEvents : List AutomationEvent
deriving DecidableEq

/-- The body of the first effect (lines 9–69): build the graph, register the
three interval timers, and start the drone. -/
def buildSession (p : Props) : Session :=
  { ctxOpen := true,
    timers := [⟨.pulseK, scale p.pulse 0 100 1600 420⟩,
               ⟨.noiseK, scale p.tension 0 100 4200 1300⟩,
               ⟨.pluckK, 2000⟩],
    capturedTension := p.tension,
    drone := droneStart (createDroneCalled p.tension),
    pulseLayer := createPulseState,
    masterGainDb := scale p.volume 0 100 (-36) (-3),
    masterGainEvents := [],
    reverbWetValue := scale p.reverb 0 100 (5/100) (5/10),
    reverbWetEvents := [] }

/-- The externally visible steps of the cleanup function, in order. -/
inductive Action where
  | clearTimer (k : TimerKind) : Action
  | droneStopA : Action
  | ctxCloseA : Action
deriving DecidableEq

/-- The cleanup function's action trace (lines 70–77): clear every timer in
`timersRef`, then stop the drone, then close the context. -/
def teardownTrace (s : Session) : List Action :=
  s.timers.map (fun t => .clearTimer t.kind) ++ [.droneStopA, .ctxCloseA]

/-- The cleanup function's effect on the session state. -/
def teardown (s : Session) : Session :=
  { s with timers := [], drone := droneStop s.drone, ctxOpen := false }

/-- The trigger calls produced by one tick of simulated time long enough for
every registered timer to fire once: one per registered timer. -/
def dueTriggers (s : Session) : List TimerKind :=
  s.timers.map (fun t => t.kind)

/-- The pulse timer's interval, if a pulse timer is registered. -/
def pulseIntervalMs (s : Session) : Option ℚ :=
  (s.timers.find? (fun t => t.kind == TimerKind.pulseK)).map (fun t => t.intervalMs)

/-- The body of the second effect (lines 81–87): retarget master gain
(0.05 s constant) and reverb wet gain (0.1 s constant), and forward the
tension to the drone.  The pulse parameter is not read here. -/
def applyParams (p : Props) (now : ℚ) (s : Session) : Session :=
  { s with
    masterGainDb := p.volume,
    masterGainEvents := s.masterGainEvents ++
      [.setTarget (scale p.volume 0 100 (-36) (-3)) now (5/100)],
    reverbWetEvents := s.reverbWetEvents ++
      [.setTarget (scale p.reverb 0 100 (5/100) (5/10)) now (1/10)],
    drone := droneSetTension p.tension now s.drone }

/-- One React commit transitioning props `prev → next` with current session
`st`.  Effect 1 re-runs only when `isRunning` changed (its dependency list);
effect 2 re-runs only when tension, reverb or volume changed. -/
def engineUpdate (prev : Props) (st : Option Session) (next : Props) (now : ℚ) :
    Option Session :=
  let st1 :=
    if next.isRunning ≠ prev.isRunning then
      (if next.isRunning then some (buildSession next) else none)
    else st
  if (next.tension, next.reverb, next.volume) ≠ (prev.tension, prev.reverb, prev.volume)
  then st1.map (applyParams next now)
  else st1

end AudioEngine

namespace AudioEngine

/-! ## Theorems -/

lemma clamp_mono {v w : ℚ} (lo hi : ℚ) (h : v ≤ w) : clamp v lo hi ≤ clamp w lo hi :=
  max_le_max le_rfl (min_le_min le_rfl h)

lemma tval_nonneg (v inMin inMax : ℚ) : 0 ≤ tval v inMin inMax := by
  unfold tval clamp
  rcases lt_trichotomy (inMax - inMin) 0 with hlt | heq | hgt
  · have hba : inMax < inMin := by linarith
    have hc : max inMin (min inMax v) = inMin :=
      max_eq_left (le_trans (min_le_left _ _) (le_of_lt hba))
    rw [hc, if_neg (by linarith), sub_self, zero_div]
  · have hba : inMax = inMin := by linarith
    have hc : max inMin (min inMax v) = inMin := by
      rw [hba]; exact max_eq_left (min_le_left _ _)
    rw [hc, if_pos (by linarith), sub_self, zero_div]
  · have hnum : 0 ≤ max inMin (min inMax v) - inMin := by
      have := le_max_left inMin (min inMax v); linarith
    rw [if_neg (by linarith)]
    exact div_nonneg hnum (le_of_lt hgt)

lemma tval_le_one (v inMin inMax : ℚ) : tval v inMin inMax ≤ 1 := by
  unfold tval clamp
  rcases lt_trichotomy (inMax - inMin) 0 with hlt | heq | hgt
  · have hba : inMax < inMin := by linarith
    have hc : max inMin (min inMax v) = inMin :=
      max_eq_left (le_trans (min_le_left _ _) (le_of_lt hba))
    rw [hc, if_neg (by linarith), sub_self, zero_div]; norm_num
  · have hba : inMax = inMin := by linarith
    have hc : max inMin (min inMax v) = inMin := by
      rw [hba]; exact max_eq_left (min_le_left _ _)
    rw [hc, if_pos (by linarith), sub_self, zero_div]; norm_num
  · have hub : max inMin (min inMax v) ≤ inMax :=
      max_le (by linarith) (min_le_left _ _)
    rw [if_neg (by linarith)]
    exact (div_le_one hgt).mpr (by linarith)

lemma tval_mono {v w : ℚ} (inMin inMax : ℚ) (h : v ≤ w) :
    tval v inMin inMax ≤ tval w inMin inMax := by
  unfold tval
  rcases eq_or_ne (inMax - inMin) 0 with heq | hne
  · rw [if_pos heq, div_one, div_one]
    have := clamp_mono inMin inMax h
    linarith
  · rw [if_neg hne]
    rcases lt_or_gt_of_ne hne with hlt | hgt
    · have hba : inMax < inMin := by linarith
      have hcv : clamp v inMin inMax = inMin := by
        unfold clamp
        exact max_eq_left (le_trans (min_le_left _ _) (le_of_lt hba))
      have hcw : clamp w inMin inMax = inMin := by
        unfold clamp
        exact max_eq_left (le_trans (min_le_left _ _) (le_of_lt hba))
      rw [hcv, hcw]
    · have := clamp_mono inMin inMax h
      exact (div_le_div_iff_of_pos_right hgt).mpr (by linarith)

/-- C2: for every input `v` (and arbitrary bounds, including the degenerate
case `inLo = inHi`), `scale v inLo inHi outLo outHi` lies between `outLo`
and `outHi` inclusive, and for fixed bounds `scale` is monotone in `v`:
non-decreasing when `outLo ≤ outHi`, non-increasing when `outHi < outLo`. -/
theorem scale_bounded_monotone (v v1 v2 inLo inHi outLo outHi : ℚ)
    (h : v1 ≤ v2) :
    (min outLo outHi ≤ scale v inLo inHi outLo outHi ∧
      scale v inLo inHi outLo outHi ≤ max outLo outHi) ∧
    (outLo ≤ outHi → scale v1 inLo inHi outLo outHi ≤ scale v2 inLo inHi outLo outHi) ∧
    (outHi < outLo → scale v2 inLo inHi outLo outHi ≤ scale v1 inLo inHi outLo outHi) := by
  have h0 := tval_nonneg v inLo inHi
  have h1 := tval_le_one v inLo inHi
  have hm := tval_mono inLo inHi h
  have h01 := tval_nonneg v1 inLo inHi
  have h02 := tval_nonneg v2 inLo inHi
  have h11 := tval_le_one v1 inLo inHi
  have h12 := tval_le_one v2 inLo inHi
  unfold scale
  refine ⟨⟨?_, ?_⟩, ?_, ?_⟩
  · rcases le_total outLo outHi with hd | hd
    · rw [min_eq_left hd]; nlinarith
    · rw [min_eq_right hd]; nlinarith
  · rcases le_total outLo outHi with hd | hd
    · rw [max_eq_right hd]; nlinarith
    · rw [max_eq_left hd]; nlinarith
  · intro hd; nlinarith
  · intro hd; nlinarith

/-- Witness for C2: the bounds and both monotonicity directions at a
concrete instantiation (v = 50, v1 = 10, v2 = 60, mapping [0,100]→[10,20]). -/
theorem scale_bounded_monotone_witness :
    (10:ℚ) ≤ 60 ∧
    ((min (10:ℚ) 20 ≤ scale 50 0 100 10 20 ∧ scale 50 0 100 10 20 ≤ max 10 20) ∧
      ((10:ℚ) ≤ 20 → scale 10 0 100 10 20 ≤ scale 60 0 100 10 20) ∧
      ((20:ℚ) < 10 → scale 60 0 100 10 20 ≤ scale 10 0 100 10 20)) :=
  ⟨by norm_num, scale_bounded_monotone 50 10 60 0 100 10 20 (by norm_num)⟩

/-- C9: in the degenerate case `inMin = inMax` the `|| 1` guard makes the
denominator 1 and the clamp collapses the numerator to 0, so
`scale(v, a, a, outLo, outHi) = outLo` for every input `v`. -/
theorem scale_degenerate_eq_outLo (v a outLo outHi : ℚ) :
    scale v a a outLo outHi = outLo := by
  simp [scale, tval, clamp, max_eq_left (min_le_left a v)]

/-- `jsScale` on finite inputs agrees with the rational model `scale`
for the engine's `[0,100]` parameter mappings. -/
lemma jsScale_fin (q outMin outMax : ℚ) :
    jsScale (.fin q) (.fin 0) (.fin 100) (.fin outMin) (.fin outMax) =
      .fin (scale q 0 100 outMin outMax) := by
  simp [jsScale, jsClamp, jsMin, jsMax, jsSub, jsOr1, jsFalsy, jsDiv, jsMul, jsAdd,
    scale, tval, clamp]

lemma clamp_idem (q : ℚ) : clamp (clamp q 0 100) 0 100 = clamp q 0 100 := by
  unfold clamp
  have h1 : (0:ℚ) ≤ max 0 (min 100 q) := le_max_left _ _
  have h2 : max 0 (min 100 q) ≤ 100 := max_le (by norm_num) (min_le_left _ _)
  rw [min_eq_right h2, max_eq_right h1]

/-- C8 counterexample: a NaN parameter is not guarded.  For the pulse
interval mapping `[0,100]→[1600,420]`, `scale(NaN, …)` evaluates to NaN,
which differs from the mapped value of every in-range parameter (in
particular from both candidates for a nearest in-range value, 0 and 100). -/
theorem jsScale_nan_counterexample :
    jsScale .nan (.fin 0) (.fin 100) (.fin 1600) (.fin 420) = .nan ∧
    jsScale (.fin 0) (.fin 0) (.fin 100) (.fin 1600) (.fin 420) = .fin 1600 ∧
    jsScale (.fin 100) (.fin 0) (.fin 100) (.fin 1600) (.fin 420) = .fin 420 ∧
    jsScale .nan (.fin 0) (.fin 100) (.fin 1600) (.fin 420) ≠
      jsScale (.fin 0) (.fin 0) (.fin 100) (.fin 1600) (.fin 420) ∧
    jsScale .nan (.fin 0) (.fin 100) (.fin 1600) (.fin 420) ≠
      jsScale (.fin 100) (.fin 0) (.fin 100) (.fin 1600) (.fin 420) := by
  refine ⟨?_, ?_, ?_, ?_, ?_⟩ <;>
    simp [jsScale, jsClamp, jsMin, jsMax, jsSub, jsOr1, jsFalsy, jsDiv, jsMul, jsAdd]

/-- C8 (amended): out-of-range finite parameter values and ±Infinity are
clamped — the derived mapped value equals that of the nearest in-range
value — and no validation is performed that could raise; but NaN is not
guarded: it propagates through `clamp` and `scale`, yielding NaN. -/
theorem jsScale_guards (q outMin outMax : ℚ) :
    jsScale (.fin q) (.fin 0) (.fin 100) (.fin outMin) (.fin outMax) =
      jsScale (.fin (clamp q 0 100)) (.fin 0) (.fin 100) (.fin outMin) (.fin outMax) ∧
    jsScale .posInf (.fin 0) (.fin 100) (.fin outMin) (.fin outMax) =
      jsScale (.fin 100) (.fin 0) (.fin 100) (.fin outMin) (.fin outMax) ∧
    jsScale .negInf (.fin 0) (.fin 100) (.fin outMin) (.fin outMax) =
      jsScale (.fin 0) (.fin 0) (.fin 100) (.fin outMin) (.fin outMax) ∧
    jsScale .nan (.fin 0) (.fin 100) (.fin outMin) (.fin outMax) = .nan := by
  refine ⟨?_, ?_, ?_, ?_⟩
  · rw [jsScale_fin, jsScale_fin]
    unfold scale tval
    rw [clamp_idem]
  · simp [jsScale, jsClamp, jsMin, jsMax, jsSub, jsOr1, jsFalsy, jsDiv, jsMul, jsAdd,
      clamp]
  · simp [jsScale, jsClamp, jsMin, jsMax, jsSub, jsOr1, jsFalsy, jsDiv, jsMul, jsAdd,
      clamp]
  · simp [jsScale, jsClamp, jsMin, jsMax, jsSub, jsOr1, jsFalsy, jsDiv, jsMul, jsAdd]

lemma reverbDelayTime_eq (i : Fin 4) : reverbDelayTime i = reverbDelayRaw i := by
  rw [reverbDelayTime, if_pos (show reverbMaxDelay ≠ 0 by norm_num [reverbMaxDelay])]
  apply min_eq_right
  fin_cases i <;> norm_num [reverbDelayRaw]

lemma filter_cancelScheduledValues (now : ℚ) (l : List AutomationEvent) :
    (cancelScheduledValues now l).filter (fun e => now ≤ eventTime e) = [] := by
  unfold cancelScheduledValues
  rw [List.filter_filter]
  rw [List.filter_eq_nil_iff]
  intro a _
  simp only [Bool.and_eq_true, decide_eq_true_eq]
  rintro ⟨h1, h2⟩
  linarith

/-- C5: every `pulse.trigger(time)` call leaves, as the pending automation
at or after the trigger time, exactly the newly scheduled envelope — the
60 Hz value followed by the exponential ramp to 40 Hz at +90 ms on the
frequency param, and the 0 value, linear ramp to 0.6 at +10 ms and
exponential ramp to 0.0001 at +600 ms on the gain param.  Any automation a
previous trigger had scheduled at or after `now` is cancelled first
(last-trigger-wins), so envelopes never stack. -/
theorem pulseTrigger_lastTriggerWins (now : ℚ) (s : PulseState) :
    ((pulseTrigger now s).freqEvents.filter (fun e => now ≤ eventTime e)) =
      [.setValue 60 now, .expRamp 40 (now + 9/100)] ∧
    ((pulseTrigger now s).gainEvents.filter (fun e => now ≤ eventTime e)) =
      [.setValue 0 now, .linearRamp (6/10) (now + 1/100), .expRamp (1/10000) (now + 6/10)] := by
  have ha : now ≤ now + 9/100 := by linarith
  have hb : now ≤ now + 1/100 := by linarith
  have hc : now ≤ now + 6/10 := by linarith
  constructor
  · rw [pulseTrigger]
    simp only [List.filter_append, filter_cancelScheduledValues, List.nil_append]
    simp [List.filter, eventTime, ha]
  · rw [pulseTrigger]
    simp only [List.filter_append, filter_cancelScheduledValues, List.nil_append]
    simp [List.filter, eventTime, hb, hc]

/-- C4: the reverb network consists of exactly four delay lines at 11, 17,
19 and 29 ms (each within the 250 ms capacity); the input feeds all four;
each delay line feeds the single shared 4500 Hz low-pass damping filter,
which feeds the output port; each line's 0.35 feedback gain re-enters only
that same line, and there is no cross-coupling between lines. -/
theorem reverbNetwork_topology :
    (∀ i : Fin 4, (RNode.input, RNode.delayLine i) ∈ reverbConnections) ∧
    (∀ i : Fin 4, (RNode.delayLine i, RNode.damp) ∈ reverbConnections ∧
      (RNode.delayLine i, RNode.feedback i) ∈ reverbConnections ∧
      (RNode.feedback i, RNode.delayLine i) ∈ reverbConnections) ∧
    (RNode.damp, RNode.output) ∈ reverbConnections ∧
    (∀ i j : Fin 4, (RNode.feedback i, RNode.delayLine j) ∈ reverbConnections → i = j) ∧
    (∀ i j : Fin 4, (RNode.delayLine i, RNode.feedback j) ∈ reverbConnections → i = j) ∧
    (∀ i j : Fin 4, (RNode.delayLine i, RNode.delayLine j) ∉ reverbConnections) ∧
    (∀ i j : Fin 4, (RNode.feedback i, RNode.feedback j) ∉ reverbConnections) ∧
    reverbDelayTime 0 = 11/1000 ∧ reverbDelayTime 1 = 17/1000 ∧
    reverbDelayTime 2 = 19/1000 ∧ reverbDelayTime 3 = 29/1000 ∧
    (∀ i : Fin 4, reverbDelayTime i ≤ reverbMaxDelay) ∧
    reverbMaxDelay = 250/1000 ∧ reverbFeedbackGain = 35/100 ∧
    reverbDampCutoff = 4500 ∧ reverbDampType = "lowpass" := by
  refine ⟨?_, ?_, ?_, ?_, ?_, ?_, ?_, ?_, ?_, ?_, ?_, ?_, ?_, ?_, ?_, ?_⟩
  · decide
  · decide
  · decide
  · decide
  · decide
  · decide
  · decide
  · rw [reverbDelayTime_eq]; norm_num [reverbDelayRaw]
  · rw [reverbDelayTime_eq]; norm_num [reverbDelayRaw]
  · rw [reverbDelayTime_eq]; norm_num [reverbDelayRaw]
  · rw [reverbDelayTime_eq]; norm_num [reverbDelayRaw]
  · intro i
    rw [reverbDelayTime_eq]
    fin_cases i <;> norm_num [reverbDelayRaw, reverbMaxDelay]
  · norm_num [reverbMaxDelay]
  · norm_num [reverbFeedbackGain]
  · norm_num [reverbDampCutoff]
  · rfl

/-- C1: session teardown clears all three scheduler timers (pulse, texture
noise, pluck), leaving no registered timer — so advancing simulated time
produces no further trigger into any layer — and every timer cancellation
occurs strictly before the audio context is closed in the cleanup trace. -/
theorem teardown_cancels_timers_before_close (p : Props) :
    (teardown (buildSession p)).timers = [] ∧
    dueTriggers (teardown (buildSession p)) = [] ∧
    teardownTrace (buildSession p) =
      [.clearTimer .pulseK, .clearTimer .noiseK, .clearTimer .pluckK,
        .droneStopA, .ctxCloseA] ∧
    (∀ k : TimerKind,
      (teardownTrace (buildSession p)).indexOf (Action.clearTimer k) <
        (teardownTrace (buildSession p)).indexOf Action.ctxCloseA) := by
  refine ⟨rfl, rfl, rfl, ?_⟩
  intro k
  have htr : teardownTrace (buildSession p) =
      [.clearTimer .pulseK, .clearTimer .noiseK, .clearTimer .pluckK,
        .droneStopA, .ctxCloseA] := rfl
  rw [htr]
  cases k <;> decide

/-- C6 counterexample: with a session started at pulse = 0 (interval
1600 ms), changing the pulse prop to 100 mid-session leaves the session —
including the registered pulse timer interval — completely unchanged at
1600 ms; the claimed new interval `scale(100,0,100,1600,420) = 420` ms never
takes effect, not even after the current interval elapses. -/
theorem pulseParamChange_counterexample :
    engineUpdate ⟨true, 50, 0, 50, 50⟩ (some (buildSession ⟨true, 50, 0, 50, 50⟩))
        ⟨true, 50, 100, 50, 50⟩ 3 =
      some (buildSession ⟨true, 50, 0, 50, 50⟩) ∧
    pulseIntervalMs (buildSession ⟨true, 50, 0, 50, 50⟩) = some 1600 ∧
    scale 100 0 100 1600 420 = 420 ∧
    (1600 : ℚ) ≠ 420 := by
  refine ⟨?_, ?_, ?_, by norm_num⟩
  · simp [engineUpdate]
  · simp [buildSession, pulseIntervalMs, List.find?, scale, tval, clamp]
  · simp [scale, tval, clamp]

/-- C6 (amended): a mid-session change of the pulse prop (with `isRunning`
and the other three props unchanged) re-runs neither effect — the pulse
parameter appears in no effect dependency list — so the pending pulse timer
is not rescheduled and the session keeps the interval computed at session
start from the old pulse value; the new value takes effect only on a
session restart, not after the current interval elapses. -/
theorem pulseParamChange_no_effect (p : Props) (q now : ℚ)
    (h : p.isRunning = true) :
    engineUpdate p (some (buildSession p)) { p with pulse := q } now =
      some (buildSession p) ∧
    pulseIntervalMs (buildSession p) = some (scale p.pulse 0 100 1600 420) := by
  constructor
  · simp [engineUpdate]
  · simp [buildSession, pulseIntervalMs, List.find?]

/-- Witness for C6 (amended): applied at a concrete running session with
pulse 0 retargeted to 100. -/
theorem pulseParamChange_no_effect_witness :
    (Props.isRunning ⟨true, 50, 0, 50, 50⟩ = true) ∧
    (engineUpdate ⟨true, 50, 0, 50, 50⟩ (some (buildSession ⟨true, 50, 0, 50, 50⟩))
        { (⟨true, 50, 0, 50, 50⟩ : Props) with pulse := 100 } 3 =
      some (buildSession ⟨true, 50, 0, 50, 50⟩) ∧
      pulseIntervalMs (buildSession ⟨true, 50, 0, 50, 50⟩) =
        some (scale 0 0 100 1600 420)) :=
  ⟨rfl, pulseParamChange_no_effect ⟨true, 50, 0, 50, 50⟩ 100 3 rfl⟩

/-- C3: at session start the drone's output gain and filter cutoff are the
hard-coded 0.14 and 400 Hz, not the tension mappings the claim states: the
engine passes `{ tension }` to `createDrone`, but `createDrone` declares no
such parameter and drops it, and the effect that calls `setTension` does not
run at session start.  At tension 0 the claimed values would be
`scale(0,0,100,0.1,0.2) = 0.1` and `scale(0,0,100,260,1800) = 260`. -/
theorem droneStart_ignores_tension :
    (buildSession ⟨true, 0, 50, 50, 50⟩).drone.gainValue = 14/100 ∧
    (buildSession ⟨true, 0, 50, 50, 50⟩).drone.lpfFrequencyValue = 400 ∧
    scale 0 0 100 (1/10) (2/10) = 1/10 ∧
    scale 0 0 100 260 1800 = 260 ∧
    createDroneCalled 0 = createDroneCalled 100 ∧
    (14/100 : ℚ) ≠ 1/10 ∧ (400 : ℚ) ≠ 260 := by
  refine ⟨rfl, rfl, ?_, ?_, rfl, by norm_num, by norm_num⟩
  · simp [scale, tval, clamp]
  · simp [scale, tval, clamp]

/-- C7: `drone.start()` and `drone.stop()` are idempotent, and `stop` never
lets an exception escape — in every state, including already-stopped and
never-started (released) ones, the explicit-error-channel version returns
`ok` with the same state `stop` computes, the empty `catch` having swallowed
any `InvalidStateError` from the oscillators. -/
theorem droneLifecycle_idempotent_safe (s : DroneState) :
    droneStart (droneStart s) = droneStart s ∧
    droneStop (droneStop s) = droneStop s ∧
    droneStopExc s = Except.ok (droneStop s) := by
  obtain ⟨running, oscStarted, a, b, c, d, e, f⟩ := s
  cases running <;> cases oscStarted <;>
    simp [droneStart, droneStop, droneStopExc, droneStopBody, oscillatorsStopRaw]

/-- C10: every texture trigger and every pluck trigger starts its one-shot
source at the trigger time and stops it exactly 2 seconds later, for every
tension and every random draw — in particular independently of the
tension-derived envelope decay end. -/
theorem oneShot_lifetime_two_seconds (now tension r r1 r2 r3 : ℚ) :
    (textureTrigger now tension r).startTime = now ∧
    (textureTrigger now tension r).stopTime = now + 2 ∧
    (pluckTrigger now tension r1 r2 r3).startTime = now ∧
    (pluckTrigger now tension r1 r2 r3).stopTime = now + 2 :=
  ⟨rfl, rfl, rfl, rfl⟩

end AudioEngine
